import Mathlib

/-!
Verification development for the Object-Detection-Backend HTTP gateway
(src/app.js). The single source file is an Express application with two
endpoints:

- GET /webcam?action=start|stop : a process-wide singleton webcam session
  tracked in the module-level variable pythonProcess (app.js line 14),
  with start/stop/invalid handling (lines 46-110);
- POST /detect : a per-request detection job; its process close handler
  (lines 158-198) deletes the uploaded file, then either fails with the
  accumulated stderr text or lists the result folder, filters to image
  extensions, and responds with result URLs. The module-level variable
  image_path (line 13) is written on the success path (line 193).

The embedding below is a shallow one: each request handler or event
handler becomes a Lean function from explicit state to state plus a list
of observable actions (responses, process spawns, kill signals, console
output). Node's event loop runs each handler to completion, so one event
= one atomic step; asynchronous event delivery (close events of child
processes, HTTP requests) is modelled as an arbitrary interleaving of
events fed to the step function.
-/

namespace ObjDetect

/-- JSON response bodies that src/app.js produces, by shape:
an error object, an error object with details, a message object
(stop success, line 103), and the detect success body
res.send(\x7bstatus: 200, image: image_path\x7d) at line 196 whose image
field is the module-level image_path variable (nullable, hence Option). -/
inductive Body where
  | errorMsg (error : String)
  | errorDetails (error details : String)
  | message (message : String)
  | images (status : Nat) (image : Option (List String))
deriving DecidableEq, Repr

/-- Renders a child-process exit code the way a JS template literal does:
a signal-terminated child reports code null, printed as "null". -/
def jsShow (code : Option Int) : String :=
  match code with
  | some n => toString n
  | none => "null"

/-! ## Webcam session state machine (app.js lines 13-14, 46-110) -/

/-- Observable actions of the webcam endpoint: an HTTP response, a
process spawn (spawn at line 64), setting the multipart MJPEG header
(line 75), a kill signal (line 100), and console output. -/
inductive WOut where
  | resp (status : Nat) (body : Body)
  | spawnProc (pid : Nat)
  | multipartHeader
  | kill (pid : Nat) (signal : String)
  | log (msg : String)
deriving DecidableEq, Repr

/-- Program plus OS state relevant to the webcam session.
pythonProcess is the module-level handle of app.js line 14 (None = null).
The remaining fields are the OS/event-loop context needed to state the
claims: spawned records every pid handed out, alive the OS processes
currently running, closedDone the pids whose close handler has already
fired (Node fires close exactly once per child). -/
structure WState where
  pythonProcess : Option Nat
  nextPid : Nat
  spawned : List Nat
  alive : List Nat
  closedDone : List Nat
deriving DecidableEq, Repr

/-- Initial state: pythonProcess = null, no processes yet. -/
def WState.init : WState := ⟨none, 0, [], [], []⟩

/-- Events the webcam handler code reacts to: an HTTP request with an
optional action query parameter, the close event of the child with the
given pid (carrying its exit code, null when signal-terminated), and the
error (spawn failure) event of the child with the given pid, carrying
the error message. -/
inductive WEvent where
  | request (action : Option String)
  | procClose (pid : Nat) (code : Option Int)
  | procError (pid : Nat) (msg : String)
deriving DecidableEq, Repr

/-- One atomic handler execution, straight from app.js lines 46-110:

- request with action=start: if pythonProcess is set, reply 400
  "already running" (lines 51-53); otherwise spawn a fresh process,
  store its handle, set the multipart header and log (lines 64-96).
- request with action=stop: if pythonProcess is set, send SIGTERM,
  clear the handle, log and reply 200 (lines 99-103); otherwise reply
  400 "no process running" (line 105).
- any other action: 400 invalid action (line 108).
- procClose pid: the close handler registered at lines 86-89 for that
  child logs the exit code and unconditionally sets pythonProcess to
  null; it runs once per spawned child. The OS process (if still
  recorded alive) is gone once close fires.
- procError pid: the error handler at lines 91-94 logs and fails the
  open response with a 500; it does not touch pythonProcess. (The
  console.error receives the error object; we render it by its
  message.) -/
def webcamStep (s : WState) (e : WEvent) : WState × List WOut :=
  match e with
  | .request a =>
    if a = some "start" then
      match s.pythonProcess with
      | some _ => (s, [.resp 400 (.errorMsg "Webcam detection is already running.")])
      | none =>
        let pid := s.nextPid
        ({ s with pythonProcess := some pid
                  nextPid := pid + 1
                  spawned := pid :: s.spawned
                  alive := pid :: s.alive },
         [.spawnProc pid, .multipartHeader, .log "Webcam detection started..."])
    else if a = some "stop" then
      match s.pythonProcess with
      | some p =>
        ({ s with pythonProcess := none, alive := s.alive.erase p },
         [.kill p "SIGTERM", .log "Webcam detection stopped.",
          .resp 200 (.message "Webcam detection stopped.")])
      | none => (s, [.resp 400 (.errorMsg "No webcam detection process is running.")])
    else
      (s, [.resp 400 (.errorMsg "Invalid action. Use ?action=start or ?action=stop")])
  | .procClose pid code =>
    if pid ∈ s.spawned ∧ pid ∉ s.closedDone then
      ({ s with pythonProcess := none
                alive := s.alive.erase pid
                closedDone := pid :: s.closedDone },
       [.log ("Python process finished with exit code " ++ jsShow code)])
    else (s, [])
  | .procError pid msg =>
    if pid ∈ s.spawned then
      (s, [.log ("Python process error: " ++ msg),
           .resp 500 (.errorDetails "Failed to start Python process" msg)])
    else (s, [])

/-- Runs a sequence of events from a state, collecting all actions. -/
def webcamRun (evs : List WEvent) (s : WState) : WState × List WOut :=
  match evs with
  | [] => (s, [])
  | e :: rest =>
    let s1 := (webcamStep s e).1
    let r := webcamRun rest s1
    (r.1, (webcamStep s e).2 ++ r.2)

/-- The event sequence of a start request whose spawn fails: Node emits
the error event and then (the process never having started, with code
-2 for ENOENT) the close event for the same child. -/
def spawnFailTrace (msg : String) : List WEvent :=
  [.request (some "start"), .procError 0 msg, .procClose 0 (some (-2))]

/-- The interleaving in which a stop request kills the first process,
a second start spawns a replacement, and only then the close event of
the killed first process is delivered, before a third start request. -/
def staleCloseTrace : List WEvent :=
  [.request (some "start"), .request (some "stop"),
   .request (some "start"), .procClose 0 none,
   .request (some "start")]

/-! ## Detection job (app.js lines 113-208) -/

/-- Module-level mutable state the detect handler touches: the variable
image_path declared (uninitialized) at app.js line 13 and assigned at
line 193. -/
structure DGlobal where
  image_path : Option (List String)
deriving DecidableEq, Repr

/-- Outcome of the fs.readdir call at line 175: an error or the list of
directory entries (in directory-listing order). -/
inductive ReaddirResult where
  | err (msg : String)
  | ok (files : List String)
deriving DecidableEq, Repr

/-- Observable actions of the detect close handler: initiating the
fs.unlink of the uploaded file (line 160), console output (lines 161,
164, 167, 177, 185), the console.log of the URL array (line 192), and
an HTTP response. -/
inductive DetectAction where
  | unlink (p : String)
  | log (msg : String)
  | logUrls (msg : String) (urls : List String)
  | respond (status : Nat) (body : Body)
deriving DecidableEq, Repr

/-- Index of the last dot in a character list, if any. -/
def lastDotIdx (cs : List Char) : Option Nat :=
  cs.enum.foldl (fun acc p => if p.2 = '.' then some p.1 else acc) none

/-- Node's path.extname restricted to a bare filename (no path
separators, which is what fs.readdir entries are): the suffix from the
last dot, except that a name without a dot, a name whose only dot is
its first character (hidden files like .bashrc), and the special name
".." all yield the empty string. -/
def extname (f : String) : String :=
  let cs := f.toList
  match lastDotIdx cs with
  | none => ""
  | some i => if i = 0 ∨ f = ".." then "" else String.mk (cs.drop i)

/-- JS String.prototype.toLowerCase, on the ASCII filenames involved
here: lower-case every character (phrased over the character list so
that it evaluates by kernel reduction). -/
def toLowerCase (s : String) : String := String.mk (s.toList.map Char.toLower)

/-- The recognized image extensions of app.js line 182. -/
def imageExts : List String := [".jpg", ".jpeg", ".png", ".bmp"]

/-- The filter at app.js line 182: keep the entries whose
path.extname(file).toLowerCase() is one of the recognized extensions. -/
def imageFilter (files : List String) : List String :=
  files.filter (fun file => imageExts.contains (toLowerCase (extname file)))

/-- The URL template literal at app.js line 190 for one file. -/
def urlOf (uniqueId file : String) : String :=
  "http://localhost:3002/output/" ++ uniqueId ++ "/results/" ++ file

/-- The imageUrls map at app.js line 190. -/
def imageUrls (uniqueId : String) (imageFiles : List String) : List String :=
  imageFiles.map (fun file => urlOf uniqueId file)

/-- The errorMessage accumulator (app.js lines 142, 152-155): starts
empty, appends each stderr chunk in arrival order. -/
def errorMessageAfter (chunks : List String) : String :=
  chunks.foldl (fun acc d => acc ++ d) ""

/-- The close handler of a detection job (app.js lines 158-198), as a
function of the module state, the job's own data (uniqueId, imagePath,
accumulated errorMessage), the exit code, and the readdir outcome it
observes. In the source the readdir callback is a separate tick, but
nothing of this job runs in between, so the handler plus its callback
form one data path. Steps, in source order:
1. initiate fs.unlink of the uploaded file (line 160) - its callback is
   unlinkCallback below and its outcome is not an input here;
2. log the exit code (line 164);
3. code !== 0 (true also for a null code): log and respond 500
   Detection failed with the accumulated stderr (lines 166-168);
4. otherwise, on readdir error: log and respond 500 (lines 176-178);
5. filter to image extensions (line 182); if none remain, log and
   respond 500 No images generated (lines 184-186);
6. otherwise build the URLs, assign the module-level image_path
   (line 193) and respond with it (line 196). -/
def detectOnClose (g : DGlobal) (uniqueId imagePath errorMessage : String)
    (code : Option Int) (rd : ReaddirResult) : DGlobal × List DetectAction :=
  let pre : List DetectAction :=
    [.unlink imagePath, .log ("Python process finished with exit code " ++ jsShow code)]
  if code ≠ some 0 then
    (g, pre ++ [.log ("Python process error: " ++ errorMessage),
                .respond 500 (.errorDetails "Detection failed" errorMessage)])
  else
    match rd with
    | .err e =>
      (g, pre ++ [.log ("Error reading result folder: " ++ e),
                  .respond 500 (.errorMsg "Failed to read result folder")])
    | .ok files =>
      let imageFiles := imageFilter files
      if imageFiles.length = 0 then
        (g, pre ++ [.log "No images found in result folder",
                    .respond 500 (.errorMsg "No images generated")])
      else
        let urls := imageUrls uniqueId imageFiles
        let g1 : DGlobal := { image_path := some urls }
        (g1, pre ++ [.logUrls "Generated image URLs:" urls,
                     .respond 200 (.images 200 g1.image_path)])

/-- The fs.unlink callback at app.js lines 160-162: a deletion failure
is logged, a success does nothing. -/
def unlinkCallback (err : Option String) : List DetectAction :=
  match err with
  | some e => [.log ("Failed to delete uploaded file: " ++ e)]
  | none => []

/-- The responses among a list of detect actions, as (status, body). -/
def responses (as : List DetectAction) : List (Nat × Body) :=
  as.filterMap (fun a =>
    match a with
    | .respond st b => some (st, b)
    | _ => none)

/-! ## Theorems about the webcam session -/

/-- C7: a start request received while the session is running (the
handle holds some process) is answered 400 with the body
error: Webcam detection is already running., and the state - the
handle, the tracked process, the live process set - is returned
unchanged; no spawn, kill or header action is emitted. -/
theorem webcam_start_while_running (s : WState) (p : Nat)
    (h : s.pythonProcess = some p) :
    webcamStep s (WEvent.request (some "start")) =
      (s, [WOut.resp 400 (Body.errorMsg "Webcam detection is already running.")]) := by
  simp [webcamStep, h]

/-- Witness for C7 at a concrete running state. -/
theorem webcam_start_while_running_witness :
    (⟨some 0, 1, [0], [0], []⟩ : WState).pythonProcess = some 0 ∧
    webcamStep ⟨some 0, 1, [0], [0], []⟩ (WEvent.request (some "start")) =
      (⟨some 0, 1, [0], [0], []⟩,
       [WOut.resp 400 (Body.errorMsg "Webcam detection is already running.")]) :=
  ⟨rfl, webcam_start_while_running ⟨some 0, 1, [0], [0], []⟩ 0 rfl⟩

/-- C8: a stop request with the handle set sends SIGTERM to exactly that
process, clears the handle, and answers 200 with the stop message; from
the resulting state a start request spawns (its first action is a
spawn, not a rejection). A stop request with no handle set answers 400
with the no-process message, with unchanged state and no kill signal
among the actions. -/
theorem webcam_stop_spec :
    (∀ (s : WState) (p : Nat), s.pythonProcess = some p →
        webcamStep s (WEvent.request (some "stop")) =
          ({ s with pythonProcess := none, alive := s.alive.erase p },
           [WOut.kill p "SIGTERM", WOut.log "Webcam detection stopped.",
            WOut.resp 200 (Body.message "Webcam detection stopped.")]) ∧
        (webcamStep { s with pythonProcess := none, alive := s.alive.erase p }
            (WEvent.request (some "start"))).2.head? =
          some (WOut.spawnProc s.nextPid)) ∧
    (∀ s : WState, s.pythonProcess = none →
        webcamStep s (WEvent.request (some "stop")) =
          (s, [WOut.resp 400 (Body.errorMsg "No webcam detection process is running.")])) := by
  constructor
  · intro s p h
    constructor
    · simp [webcamStep, h]
    · simp [webcamStep]
  · intro s h
    simp [webcamStep, h]

/-- Witness for C8: the stop transition at a concrete running state and
at the concrete idle state. -/
theorem webcam_stop_spec_witness :
    ((⟨some 0, 1, [0], [0], []⟩ : WState).pythonProcess = some 0 ∧
      (webcamStep ⟨some 0, 1, [0], [0], []⟩ (WEvent.request (some "stop")) =
        (⟨none, 1, [0], [], []⟩,
         [WOut.kill 0 "SIGTERM", WOut.log "Webcam detection stopped.",
          WOut.resp 200 (Body.message "Webcam detection stopped.")]) ∧
       (webcamStep ⟨none, 1, [0], [], []⟩ (WEvent.request (some "start"))).2.head? =
         some (WOut.spawnProc 1))) ∧
    (WState.init.pythonProcess = none ∧
      webcamStep WState.init (WEvent.request (some "stop")) =
        (WState.init,
         [WOut.resp 400 (Body.errorMsg "No webcam detection process is running.")])) :=
  ⟨⟨rfl, webcam_stop_spec.1 ⟨some 0, 1, [0], [0], []⟩ 0 rfl⟩,
   ⟨rfl, webcam_stop_spec.2 WState.init rfl⟩⟩

/-- C4 (bug evidence): running the interleaving start, stop, start,
then the delayed close event of the first (killed) process, then start
again, leaves TWO webcam detector processes alive at once (pids 2 and
1): the stale close handler of the killed process unconditionally nulls
the shared handle (app.js line 88), so the guard at line 51 no longer
protects the second process against a further spawn. -/
theorem webcam_stale_close_two_alive :
    (webcamRun staleCloseTrace WState.init).1.alive = [2, 1] ∧
    2 ≤ (webcamRun staleCloseTrace WState.init).1.alive.length := by
  constructor <;> rfl

/-- C1: after a start request whose spawn fails - Node delivers the
error event and then the close event of the never-started child - the
open response has been failed with status 500 and body
error: Failed to start Python process, details: the error message; the
handle is back to null; and a further start request is accepted (it
spawns a fresh process rather than answering already running). -/
theorem webcam_spawn_error_recovers (msg : String) :
    (webcamRun (spawnFailTrace msg) WState.init).1.pythonProcess = none ∧
    WOut.resp 500 (Body.errorDetails "Failed to start Python process" msg)
      ∈ (webcamRun (spawnFailTrace msg) WState.init).2 ∧
    (webcamStep (webcamRun (spawnFailTrace msg) WState.init).1
        (WEvent.request (some "start"))).2 =
      [WOut.spawnProc 1, WOut.multipartHeader,
       WOut.log "Webcam detection started..."] := by
  refine ⟨rfl, ?_, rfl⟩
  simp [webcamRun, webcamStep, spawnFailTrace, WState.init, jsShow]

/-! ## Theorems about detection jobs -/

/-- Shape of every close-handler run: the unlink of the uploaded file
comes first, then the exit-code log, then one more console action, then
the single response; the third action is never a response. -/
theorem detectOnClose_actions_shape (g : DGlobal)
    (uniqueId imagePath errorMessage : String) (code : Option Int)
    (rd : ReaddirResult) :
    ∃ (m2 : DetectAction) (st : Nat) (b : Body),
      (detectOnClose g uniqueId imagePath errorMessage code rd).2 =
        [DetectAction.unlink imagePath,
         DetectAction.log ("Python process finished with exit code " ++ jsShow code),
         m2, DetectAction.respond st b] ∧
      ∀ (st' : Nat) (b' : Body), m2 ≠ DetectAction.respond st' b' := by
  unfold detectOnClose
  by_cases hc : code ≠ some 0
  · exact ⟨DetectAction.log ("Python process error: " ++ errorMessage), 500,
      Body.errorDetails "Detection failed" errorMessage, by simp [hc], by intro st' b'; simp⟩
  · cases rd with
    | err e =>
      exact ⟨DetectAction.log ("Error reading result folder: " ++ e), 500,
        Body.errorMsg "Failed to read result folder", by simp [hc], by intro st' b'; simp⟩
    | ok files =>
      by_cases hl : (imageFilter files).length = 0
      · exact ⟨DetectAction.log "No images found in result folder", 500,
          Body.errorMsg "No images generated", by simp [hc, hl], by intro st' b'; simp⟩
      · exact ⟨DetectAction.logUrls "Generated image URLs:"
            (imageUrls uniqueId (imageFilter files)), 200,
          Body.images 200 (some (imageUrls uniqueId (imageFilter files))),
          by simp [hc, hl], by intro st' b'; simp⟩

/-- C2 counterexample to no-shared-state-as-stated: the close handler of
a successful job writes the module-level image_path variable (its output
module state differs from its input module state), and a second job's
handler writes the very same variable again. -/
theorem detect_jobs_write_shared_image_path :
    (detectOnClose ⟨none⟩ "a" "up-a.png" "" (some 0)
        (ReaddirResult.ok ["x.jpg"])).1 ≠ (⟨none⟩ : DGlobal) ∧
    (detectOnClose ⟨none⟩ "a" "up-a.png" "" (some 0)
        (ReaddirResult.ok ["x.jpg"])).1.image_path =
      some ["http://localhost:3002/output/a/results/x.jpg"] ∧
    (detectOnClose
        (detectOnClose ⟨none⟩ "a" "up-a.png" "" (some 0)
          (ReaddirResult.ok ["x.jpg"])).1
        "b" "up-b.png" "" (some 0) (ReaddirResult.ok ["y.jpg"])).1.image_path =
      some ["http://localhost:3002/output/b/results/y.jpg"] := by
  refine ⟨by decide, rfl, rfl⟩

/-- C2 amended: although every successful job writes the shared
image_path variable, the write happens immediately before the read
inside the same atomic callback, so a job's entire action list - in
particular its success response - is independent of the module state
other jobs left behind: it is a function of the job's own id, upload
path, stderr text, exit code and directory listing alone. -/
theorem detect_response_independent_of_global (g g' : DGlobal)
    (uniqueId imagePath errorMessage : String) (code : Option Int)
    (rd : ReaddirResult) :
    (detectOnClose g uniqueId imagePath errorMessage code rd).2 =
    (detectOnClose g' uniqueId imagePath errorMessage code rd).2 := by
  unfold detectOnClose
  by_cases hc : code ≠ some 0
  · simp [hc]
  · cases rd with
    | err e => simp [hc]
    | ok files => by_cases hl : (imageFilter files).length = 0 <;> simp [hc, hl]

/-- C3: a job whose process exits 0 and whose result directory survives
filtering with k images responds 200 with body status 200 and exactly
the k URLs, one per surviving file in directory-listing order, each of
the form base/output/(job id)/results/(file name). -/
theorem detect_success_urls (g : DGlobal)
    (uniqueId imagePath errorMessage : String) (files : List String)
    (h : imageFilter files ≠ []) :
    (detectOnClose g uniqueId imagePath errorMessage (some 0)
        (ReaddirResult.ok files)).2 =
      [DetectAction.unlink imagePath,
       DetectAction.log "Python process finished with exit code 0",
       DetectAction.logUrls "Generated image URLs:"
         (imageUrls uniqueId (imageFilter files)),
       DetectAction.respond 200
         (Body.images 200 (some (imageUrls uniqueId (imageFilter files))))] ∧
    (imageUrls uniqueId (imageFilter files)).length = (imageFilter files).length ∧
    (∀ i : Nat, (imageUrls uniqueId (imageFilter files))[i]? =
      ((imageFilter files)[i]?).map
        (fun file =>
          "http://localhost:3002/output/" ++ uniqueId ++ "/results/" ++ file)) := by
  have hl : ¬ (imageFilter files).length = 0 := by
    simpa [List.length_eq_zero] using h
  refine ⟨?_, by simp [imageUrls], fun i => ?_⟩
  · simp [detectOnClose, hl]
    rfl
  · simp [imageUrls, urlOf, List.getElem?_map]

/-- Witness for C3 with a one-image listing. -/
theorem detect_success_urls_witness :
    imageFilter ["x.jpg"] ≠ [] ∧
    ((detectOnClose ⟨none⟩ "a" "up.png" "" (some 0)
        (ReaddirResult.ok ["x.jpg"])).2 =
      [DetectAction.unlink "up.png",
       DetectAction.log "Python process finished with exit code 0",
       DetectAction.logUrls "Generated image URLs:"
         (imageUrls "a" (imageFilter ["x.jpg"])),
       DetectAction.respond 200
         (Body.images 200 (some (imageUrls "a" (imageFilter ["x.jpg"]))))] ∧
    (imageUrls "a" (imageFilter ["x.jpg"])).length =
      (imageFilter ["x.jpg"]).length ∧
    (∀ i : Nat, (imageUrls "a" (imageFilter ["x.jpg"]))[i]? =
      ((imageFilter ["x.jpg"])[i]?).map
        (fun file =>
          "http://localhost:3002/output/" ++ "a" ++ "/results/" ++ file))) :=
  ⟨by decide, detect_success_urls ⟨none⟩ "a" "up.png" "" ["x.jpg"] (by decide)⟩

/-- C5: a job whose process exits with a non-zero code responds 500
with body error: Detection failed and details exactly the concatenation
of the stderr chunks in arrival order (String.join of the chunk list),
whatever the directory listing would have said. -/
theorem detect_nonzero_exit_stderr (g : DGlobal)
    (uniqueId imagePath : String) (chunks : List String) (n : Int)
    (h : n ≠ 0) (rd : ReaddirResult) :
    (detectOnClose g uniqueId imagePath (errorMessageAfter chunks)
        (some n) rd).2 =
      [DetectAction.unlink imagePath,
       DetectAction.log ("Python process finished with exit code " ++ toString n),
       DetectAction.log ("Python process error: " ++ String.join chunks),
       DetectAction.respond 500
         (Body.errorDetails "Detection failed" (String.join chunks))] := by
  have hj : errorMessageAfter chunks = String.join chunks := rfl
  have hc : (some n : Option Int) ≠ some 0 := by simpa using h
  simp [detectOnClose, hc, hj, jsShow]

/-- Witness for C5: exit code 1 with two stderr chunks. -/
theorem detect_nonzero_exit_stderr_witness :
    (1 : Int) ≠ 0 ∧
    (detectOnClose ⟨none⟩ "a" "up.png" (errorMessageAfter ["boom ", "crash"])
        (some 1) (ReaddirResult.ok ["x.jpg"])).2 =
      [DetectAction.unlink "up.png",
       DetectAction.log ("Python process finished with exit code " ++ toString (1 : Int)),
       DetectAction.log ("Python process error: " ++ String.join ["boom ", "crash"]),
       DetectAction.respond 500
         (Body.errorDetails "Detection failed" (String.join ["boom ", "crash"]))] :=
  ⟨by decide,
   detect_nonzero_exit_stderr ⟨none⟩ "a" "up.png" ["boom ", "crash"] 1 (by decide)
     (ReaddirResult.ok ["x.jpg"])⟩

/-- C6: the filter keeps exactly the entries whose extension, lowered,
is one of .jpg .jpeg .png .bmp; and a zero-exit job whose listing has no
surviving entry responds 500 with body error: No images generated. -/
theorem image_filter_spec :
    (∀ (files : List String) (f : String),
        f ∈ imageFilter files ↔
          f ∈ files ∧
          toLowerCase (extname f) ∈
            ([".jpg", ".jpeg", ".png", ".bmp"] : List String)) ∧
    (∀ (g : DGlobal) (uniqueId imagePath errorMessage : String)
        (files : List String),
        imageFilter files = [] →
        (detectOnClose g uniqueId imagePath errorMessage (some 0)
            (ReaddirResult.ok files)).2 =
          [DetectAction.unlink imagePath,
           DetectAction.log "Python process finished with exit code 0",
           DetectAction.log "No images found in result folder",
           DetectAction.respond 500 (Body.errorMsg "No images generated")]) := by
  constructor
  · intro files f
    simp [imageFilter, List.mem_filter, List.contains, List.elem_iff, imageExts]
  · intro g uniqueId imagePath errorMessage files hf
    simp [detectOnClose, hf]
    rfl

/-- Witness for C6: a listing holding only a .txt file. -/
theorem image_filter_spec_witness :
    imageFilter ["foo.txt"] = [] ∧
    (detectOnClose ⟨none⟩ "a" "up.png" "" (some 0)
        (ReaddirResult.ok ["foo.txt"])).2 =
      [DetectAction.unlink "up.png",
       DetectAction.log "Python process finished with exit code 0",
       DetectAction.log "No images found in result folder",
       DetectAction.respond 500 (Body.errorMsg "No images generated")] :=
  ⟨by decide,
   image_filter_spec.2 ⟨none⟩ "a" "up.png" "" ["foo.txt"] (by decide)⟩

/-- C9: whatever the exit code and listing outcome, the close handler
initiates the deletion of the uploaded file as its first action,
emits exactly one response (chosen after the deletion attempt), and the
deletion callback produces no response at all for any outcome - a
failed deletion is only logged. The deletion outcome is not even an
input of detectOnClose, so the chosen response cannot depend on it. -/
theorem detect_unlink_before_response (g : DGlobal)
    (uniqueId imagePath errorMessage : String) (code : Option Int)
    (rd : ReaddirResult) :
    (detectOnClose g uniqueId imagePath errorMessage code rd).2.head? =
      some (DetectAction.unlink imagePath) ∧
    (responses (detectOnClose g uniqueId imagePath errorMessage code rd).2).length
      = 1 ∧
    (∀ e : Option String, responses (unlinkCallback e) = []) := by
  obtain ⟨m2, st, b, hshape, hm2⟩ :=
    detectOnClose_actions_shape g uniqueId imagePath errorMessage code rd
  refine ⟨by rw [hshape]; rfl, ?_, fun e => by cases e <;> rfl⟩
  rw [hshape]
  cases m2 with
  | respond st' b' => exact absurd rfl (hm2 st' b')
  | unlink p => rfl
  | log m => rfl
  | logUrls m urls => rfl

/-- C10: every URL a successful job returns starts with the literal
absolute prefix http://localhost:3002/output/ - the scheme, host and
port are hardcoded in the URL template, which takes no request data
(host header or otherwise) as input. -/
theorem image_urls_hardcoded_base (uniqueId : String) (files : List String)
    (u : String) (h : u ∈ imageUrls uniqueId files) :
    ∃ rest : String, u = "http://localhost:3002/output/" ++ rest := by
  simp only [imageUrls, urlOf, List.mem_map] at h
  obtain ⟨f, hf, rfl⟩ := h
  exact ⟨uniqueId ++ "/results/" ++ f, by simp [String.append_assoc]⟩

/-- Witness for C10 on a concrete job id and file. -/
theorem image_urls_hardcoded_base_witness :
    "http://localhost:3002/output/a/results/x.jpg" ∈ imageUrls "a" ["x.jpg"] ∧
    ∃ rest : String,
      "http://localhost:3002/output/a/results/x.jpg" =
        "http://localhost:3002/output/" ++ rest :=
  ⟨by decide,
   image_urls_hardcoded_base "a" ["x.jpg"]
     "http://localhost:3002/output/a/results/x.jpg" (by decide)⟩

end ObjDetect
